import Mathlib

/-!
# Verification of the spriter video-to-sprite-sheet converter

Shallow embedding of `src/spriter/main.py` (the `spriter` CLI) and proofs
about its frame-slicing, blank-frame filtering, loop synthesis, GIF timing,
input validation, directory discovery, preset resolution and command
construction.

Modelling conventions:
* Raster images are modelled as a width, a height and a total pixel function
  `Nat → Nat → RGB`; Python's PIL images are only ever read through
  `getpixel` after `convert('RGB')`, so RGB triples of naturals suffice.
* Python machine floats in the blank-frame heuristic (`sum(pixel)/3`,
  `/ len(pixels_to_check)`, thresholds `0.6` and `10`) are modelled as exact
  rationals; at the achievable sample points the compared quantities are
  multiples of `1/21` whose distance from the thresholds far exceeds any
  double-rounding error, so the rational model is extensionally faithful.
* PIL's LANCZOS resampling (`frame.resize`) is an external library call and
  is abstracted as an uninterpreted function parameter `resizeFn`.
* External effects (ffmpeg conversion success, the sheet file existing
  afterwards, Pillow availability, the re-read sheet contents, the probed
  original resolution, GIF encode success) are threaded through an explicit
  environment record `VEnv`; files are modelled by name, writes by an
  append-only list.
* Nat subtraction in `pixels_to_check` agrees with Python on every frame of
  width and height at least 1, the only frames on which the Python code does
  not raise out of `getpixel`.
-/

namespace Spriter

set_option maxRecDepth 4000

/-- An RGB pixel value, each channel on the 0–255 scale. -/
abbrev RGB := Nat × Nat × Nat

/-- A raster image: dimensions plus a total pixel lookup function. -/
structure Image where
  width : Nat
  height : Nat
  pix : Nat → Nat → RGB

/-- Default image used only as the out-of-range default of list lookups. -/
def defaultImage : Image :=
  ⟨0, 0, fun _ _ => (0, 0, 0)⟩

/-- `sprite_sheet.crop((left, top, right, bottom))` from main.py line 252:
the sub-image of width `right - left` and height `bottom - top` whose pixel
`(x, y)` is the source pixel `(left + x, top + y)`. -/
def Image.crop (img : Image) (left top right bottom : Nat) : Image :=
  ⟨right - left, bottom - top, fun x y => img.pix (left + x) (top + y)⟩

/-- Two images are pixel-identical: same dimensions and equal pixels at
every in-range coordinate. -/
def Image.pixEq (a b : Image) : Prop :=
  a.width = b.width ∧ a.height = b.height ∧
    ∀ x < a.width, ∀ y < a.height, a.pix x y = b.pix x y

/-- List lookup with the default image, used to state positional facts
about frame sequences. -/
def frameAt (l : List Image) (i : Nat) : Image :=
  l.getD i defaultImage

/-- The seven probe coordinates of main.py lines 258–266: center, four
inset corners (inset by `min(10, dim-1)`), and two quarter-diagonal
points. -/
def pixels_to_check (fw fh : Nat) : List (Nat × Nat) :=
  [(fw / 2, fh / 2),
   (min 10 (fw - 1), min 10 (fh - 1)),
   (fw - min 10 (fw - 1), min 10 (fh - 1)),
   (min 10 (fw - 1), fh - min 10 (fh - 1)),
   (fw - min 10 (fw - 1), fh - min 10 (fh - 1)),
   (fw / 4, fh / 4),
   (3 * fw / 4, 3 * fh / 4)]

/-- `sum(pixel) / 3` from main.py line 279: the brightness of one pixel. -/
def brightness (px : RGB) : ℚ :=
  ((px.1 : ℚ) + px.2.1 + px.2.2) / 3

/-- The loop of main.py lines 269–280: walk the probe points, skip those
outside the frame, count exact pure-black pixels and accumulate the total
brightness. -/
def blankData (f : Image) : Nat × ℚ :=
  (pixels_to_check f.width f.height).foldl
    (fun acc p =>
      if p.1 < f.width ∧ p.2 < f.height then
        ((if f.pix p.1 p.2 = (0, 0, 0) then acc.1 + 1 else acc.1),
         acc.2 + brightness (f.pix p.1 p.2))
      else acc)
    (0, 0)

/-- Lines 282–287 of main.py: a frame is blank when the black-pixel
fraction over the seven probe points reaches 0.6 or the average brightness
falls below 10. -/
def isBlankFrame (f : Image) : Bool :=
  let d := blankData f
  decide ((3 : ℚ) / 5 ≤ (d.1 : ℚ) / 7 ∨ d.2 / 7 < 10)

/-- The probe points that fall inside the frame (the `px < frame_width and
py < frame_height` guard of main.py line 273). -/
def inboundsProbes (f : Image) : List (Nat × Nat) :=
  (pixels_to_check f.width f.height).filter
    (fun p => decide (p.1 < f.width) && decide (p.2 < f.height))

/-- How many in-bounds probe points are exact pure black. -/
def blackCount (f : Image) : Nat :=
  (inboundsProbes f).countP (fun p => decide (f.pix p.1 p.2 = (0, 0, 0)))

/-- The total of `R+G+B` over the in-bounds probe points. -/
def rgbSum (f : Image) : Nat :=
  ((inboundsProbes f).map
    (fun p => (f.pix p.1 p.2).1 + (f.pix p.1 p.2).2.1 + (f.pix p.1 p.2).2.2)).sum

/-- Integer form of the blank test, proved equal to `isBlankFrame` below:
at least 5 of the 7 probe fractions reach 0.6, and total `R+G+B` below 210
is average brightness below 10. -/
def isBlankB (f : Image) : Bool :=
  decide (5 ≤ blackCount f ∨ rgbSum f < 210)

/-- The nested row/column iteration of main.py lines 245–246, producing
`(row, col)` pairs in row-major order: all of row `0` first, each row left
to right. -/
def gridCells (cols : Nat) : Nat → List (Nat × Nat)
  | 0 => []
  | n + 1 => gridCells cols n ++ (List.range cols).map (fun c2 => (n, c2))

/-- Lines 238–252 of main.py: cell dimensions by integer division of the
sheet dimensions, then one crop per grid cell in row-major order. -/
def croppedFrames (sheet : Image) (cols rows : Nat) : List Image :=
  let fw := sheet.width / cols
  let fh := sheet.height / rows
  (gridCells cols rows).map
    (fun rc => sheet.crop (rc.2 * fw) (rc.1 * fh) (rc.2 * fw + fw) (rc.1 * fh + fh))

/-- Lines 245–295 of main.py: crop every cell, drop the blank ones, and
resize the retained ones to the original video resolution when it is
known. `resizeFn` abstracts PIL's `Image.resize` with LANCZOS
resampling. -/
def extractRetainedFrames (sheet : Image) (grid_cols grid_rows : Nat)
    (origRes : Option (Nat × Nat)) (resizeFn : Image → Nat → Nat → Image) :
    List Image :=
  (croppedFrames sheet grid_cols grid_rows).filterMap
    (fun fr =>
      if isBlankFrame fr then none
      else
        match origRes with
        | some wh => some (resizeFn fr wh.1 wh.2)
        | none => some fr)

/-- Lines 297–301 of main.py: when more than one frame was retained,
append the first frame again at the end. -/
def loopFrames (frames : List Image) : List Image :=
  match frames with
  | f0 :: f1 :: rest => (f0 :: f1 :: rest) ++ [f0]
  | fs => fs

/-- The animated GIF as handed to PIL `save` on main.py lines 308–314: the
frame sequence, the single per-frame duration in milliseconds, and the
loop count (0 means infinite). PIL applies a scalar `duration` to every
frame of the animation. -/
structure GifEncode where
  frames : List Image
  duration : Nat
  loopCount : Nat

/-- The per-frame display durations of an encoded GIF: PIL replicates the
scalar `duration` across all frames. -/
def gifFrameDurations (g : GifEncode) : List Nat :=
  List.replicate g.frames.length g.duration

/-- `create_sprite_gif` of main.py lines 211–320, as a function of the
sheet image read back from disk and an effect environment. Returns the
encoded GIF (when one was written) and the Python return value. Pillow
missing returns `False` (line 215); an empty frame sequence returns
`False` without saving (line 316); a failing save raises inside the
`try`, is caught at line 318 and returns `False`; `encodeOk` models
whether the save call succeeds. `frame_duration` is Python
`int(1000 / fps)`, which on positive integer `fps` is truncating
division. -/
def create_sprite_gif (pil : Bool) (sheet : Image) (grid_cols grid_rows fps : Nat)
    (origRes : Option (Nat × Nat)) (resizeFn : Image → Nat → Nat → Image)
    (encodeOk : Bool) : Option GifEncode × Bool :=
  if !pil then (none, false)
  else
    let frames := loopFrames (extractRetainedFrames sheet grid_cols grid_rows origRes resizeFn)
    let frame_duration := 1000 / fps
    if frames.isEmpty then (none, false)
    else if encodeOk then (some ⟨frames, frame_duration, 0⟩, true)
    else (none, false)

/-- The preset names accepted by `click.Choice(['game', 'web', 'hires'])`
on main.py line 27. -/
inductive Preset
  | game
  | web
  | hires

/-- A resolved sampling configuration: frames per second, frame size
string, grid layout string. -/
structure SamplingConfig where
  fps : Nat
  size : String
  grid : String
deriving DecidableEq

/-- The preset table of main.py lines 37–41. -/
def preset_configs : Preset → SamplingConfig
  | .game => ⟨10, "64x64", "6x6"⟩
  | .web => ⟨8, "32x32", "4x4"⟩
  | .hires => ⟨12, "128x128", "8x8"⟩

/-- Lines 36–45 of main.py: when a preset is given its table entry
replaces the individually supplied fps, size and grid wholesale. -/
def applyPreset (preset : Option Preset) (fps : Nat) (size grid : String) :
    SamplingConfig :=
  match preset with
  | some p => preset_configs p
  | none => ⟨fps, size, grid⟩

/-- The preset's CLI spelling, used in default output names (line 90). -/
def presetName : Preset → String
  | .game => "game"
  | .web => "web"
  | .hires => "hires"

/-- `str.lower()` for the ASCII filenames involved: lowercase every
character. (Implemented over the character list so that concrete instances
evaluate; core `String.toLower` is equivalent on these inputs.) -/
def strToLower (s : String) : String :=
  ⟨s.data.map Char.toLower⟩

/-- `str.upper()` for the ASCII extension strings: uppercase every
character. -/
def strToUpper (s : String) : String :=
  ⟨s.data.map Char.toUpper⟩

/-- Whether `s` ends with `p`; the meaning of globbing `*<p>` against a
filename `s`. -/
def strEndsWith (s p : String) : Bool :=
  p.data.isSuffixOf s.data

/-- The extension list of main.py line 58 used by directory discovery. -/
def video_extensions : List String :=
  [".mov", ".mp4", ".mpg"]

/-- Directory discovery of main.py lines 58–62: for each extension, in
order, glob `*<ext>` and then `*<EXT>`; `glob` is case-sensitive, so only
exact lowercase and exact uppercase extensions match. A filename list
stands in for the directory listing; `*<ext>` matches exactly the names
ending in `<ext>`. -/
def findVideoFiles (names : List String) : List String :=
  video_extensions.foldl
    (fun acc ext =>
      acc ++ names.filter (fun n => strEndsWith n ext)
          ++ names.filter (fun n => strEndsWith n (strToUpper ext)))
    []

/-- The allow-list of main.py line 83 used by per-file validation. -/
def supported_formats : List String :=
  [".mov", ".mp4", ".mpg"]

/-- Index of the last `'.'` in a character list, accumulator form. -/
def lastDotIndexAux : List Char → Nat → Option Nat → Option Nat
  | [], _, acc => acc
  | c :: cs, i, acc => lastDotIndexAux cs (i + 1) (if c = '.' then some i else acc)

/-- Index of the last `'.'` in a character list, if any. -/
def lastDotIndex (cs : List Char) : Option Nat :=
  lastDotIndexAux cs 0 none

/-- `pathlib.Path.suffix` on a bare filename: the substring from the last
dot, provided that dot is neither the first nor the last character;
otherwise the empty string. -/
def pathSuffix (name : String) : String :=
  let cs := name.toList
  match lastDotIndex cs with
  | none => ""
  | some i => if 0 < i ∧ i < cs.length - 1 then String.mk (cs.drop i) else ""

/-- `pathlib.Path.stem` on a bare filename: the name with its suffix
removed. -/
def pathStem (name : String) : String :=
  String.mk (name.toList.take (name.toList.length - (pathSuffix name).toList.length))

/-- Lines 88–97 of main.py: the default output sheet name derived from the
input stem and either the preset name or the fps/size/grid parameters. -/
def defaultOutputName (inputName : String) (fps : Nat) (size grid : String) :
    Option Preset → String
  | some p => pathStem inputName ++ "_spritesheet_" ++ presetName p ++ ".png"
  | none =>
      pathStem inputName ++ "_spritesheet_" ++ toString fps ++ "fps_"
        ++ size ++ "_" ++ grid ++ ".png"

/-- The output path actually used: the `--output` option when given, else
the derived default name. -/
def resolvedOutput (inputName : String) (output : Option String) (fps : Nat)
    (size grid : String) (preset : Option Preset) : String :=
  match output with
  | some o => o
  | none => defaultOutputName inputName fps size grid preset

/-- Lines 115–160 of main.py: the ffmpeg video filter. Both the `--loop`
branch and the plain branch assign the same
`fps={fps},scale={size},tile={grid}` expression (the loop branch only adds
probing and console output); the duplicated literal mirrors the source. -/
def buildVf (loopFlag : Bool) (fps : Nat) (size grid : String) : String :=
  if loopFlag then
    "fps=" ++ toString fps ++ ",scale=" ++ size ++ ",tile=" ++ grid
  else
    "fps=" ++ toString fps ++ ",scale=" ++ size ++ ",tile=" ++ grid

/-- Lines 162–169 of main.py: the ffmpeg extraction command. -/
def ffmpegCmd (inputName vf outputFile : String) : List String :=
  ["ffmpeg", "-i", inputName, "-vf", vf, "-frames:v", "1", "-y", outputFile]

/-- Split a character list at every occurrence of `sep`, the behaviour of
`str.split(sep)` on the grid strings involved. -/
def splitOnCharAux : List Char → Char → List Char → List (List Char)
  | [], _, acc => [acc.reverse]
  | c :: cs, sep, acc =>
      if c = sep then acc.reverse :: splitOnCharAux cs sep []
      else splitOnCharAux cs sep (c :: acc)

/-- `int(s)` on nonnegative decimal strings; `none` models the `ValueError`
raised on anything else. -/
def charsToNat (cs : List Char) : Option Nat :=
  if cs ≠ [] ∧ cs.all Char.isDigit then
    some (cs.foldl (fun n c => n * 10 + (c.toNat - 48)) 0)
  else none

/-- `map(int, grid.split('x'))` from main.py lines 130 and 194. Malformed
grid strings raise in Python; they default to 0 here and appear in no
claim. -/
def parseGrid (grid : String) : Nat × Nat :=
  match splitOnCharAux grid.data 'x' [] with
  | [c, r] => ((charsToNat c).getD 0, (charsToNat r).getD 0)
  | _ => (0, 0)

/-- The effect environment of one `process_video_file` run: whether the
ffmpeg conversion exits successfully, whether the output file exists
afterwards, whether Pillow importable (`PIL_AVAILABLE`, lines 14–18), the
sheet image as read back from the written file, the probed original video
resolution, the resize function, and whether the GIF save succeeds. -/
structure VEnv where
  convOk : Bool
  outputExists : Bool
  pil : Bool
  sheetImage : Image
  origRes : Option (Nat × Nat)
  resizeFn : Image → Nat → Nat → Image
  encodeOk : Bool

/-- The observable outcome of `process_video_file`: the ffmpeg extraction
command that was run (if any), the files written in order, and the Python
return value. -/
structure VResult where
  extractionCmd : Option (List String)
  written : List String
  success : Bool

/-- `process_video_file` of main.py lines 79–208: reject unsupported
suffixes before any ffmpeg invocation (lines 83–85); otherwise resolve the
output path, build the filter and command, run the conversion, and on
success optionally run `create_sprite_gif` on the sheet read back from
disk. The written-file list is append-only: nothing in the source deletes
or truncates an already written sheet. -/
def process_video_file (inputName : String) (output : Option String) (fps : Nat)
    (size grid : String) (preset : Option Preset) (loopFlag create_gif : Bool)
    (env : VEnv) : VResult :=
  if strToLower (pathSuffix inputName) ∉ supported_formats then
    ⟨none, [], false⟩
  else
    let output_file := resolvedOutput inputName output fps size grid preset
    let vf := buildVf loopFlag fps size grid
    let cmd := ffmpegCmd inputName vf output_file
    if env.convOk then
      if env.outputExists then
        let gd := parseGrid grid
        let gifFiles :=
          if create_gif then
            match create_sprite_gif env.pil env.sheetImage gd.1 gd.2 fps
                env.origRes env.resizeFn env.encodeOk with
            | (some _, _) => [pathStem output_file ++ ".gif"]
            | (none, _) => []
          else []
        ⟨some cmd, output_file :: gifFiles, true⟩
      else ⟨some cmd, [], false⟩
    else ⟨some cmd, [], false⟩

/-- The single-file path of `main` (main.py lines 30–76): exit 1 when
ffmpeg is unavailable (line 53); otherwise apply the preset, call
`process_video_file` discarding its return value (line 76), and fall off
the end of `main`, which makes the process exit status 0. -/
def mainSingle (ffmpegAvailable : Bool) (inputName : String)
    (output : Option String) (fps : Nat) (size grid : String)
    (preset : Option Preset) (loopFlag create_gif : Bool) (env : VEnv) :
    Nat × Option VResult :=
  if !ffmpegAvailable then (1, none)
  else
    let cfg := applyPreset preset fps size grid
    (0, some (process_video_file inputName output cfg.fps cfg.size cfg.grid
      preset loopFlag create_gif env))

/-- A 4×2 all-white test sheet: with a 2×1 grid it slices into two 2×2
white frames, both retained. -/
def allWhiteImg : Image :=
  ⟨4, 2, fun _ _ => (255, 255, 255)⟩

/-- A 4×2 all-black test sheet: with a 2×1 grid it slices into two 2×2
black frames, both discarded as blank. -/
def allBlackImg : Image :=
  ⟨4, 2, fun _ _ => (0, 0, 0)⟩

/-- A single 2×2 all-black frame. -/
def blackFrame : Image :=
  ⟨2, 2, fun _ _ => (0, 0, 0)⟩

/-- The identity stand-in for the abstract resize function. -/
def idResize : Image → Nat → Nat → Image :=
  fun i _ _ => i

/-- A concrete effect environment: everything available and succeeding,
the sheet reading back as `allWhiteImg`, no probed resolution. -/
def sampleEnv : VEnv :=
  ⟨true, true, true, allWhiteImg, none, idResize, true⟩

/-- `sampleEnv` with Pillow unavailable. -/
def sampleEnvNoPil : VEnv :=
  ⟨true, true, false, allWhiteImg, none, idResize, true⟩

/-- Pixel-identity is reflexive. -/
theorem Image.pixEq_refl (a : Image) : a.pixEq a :=
  ⟨rfl, rfl, fun _ _ _ _ => rfl⟩

/-- Filtering out via an `if … then none else some`-shaped `filterMap` is
a plain `filter` on the negated test. -/
theorem filterMap_if_eq_filter {α : Type} (p : α → Bool) (l : List α) :
    l.filterMap (fun a => if p a then none else some a)
      = l.filter (fun a => !p a) := by
  induction l with
  | nil => rfl
  | cons a l ih =>
      by_cases h : p a <;>
        simp [List.filterMap_cons, List.filter_cons, h, ih]

/-- The blank-statistics fold, run from an arbitrary accumulator, counts
black in-bounds probes and accumulates one third of the in-bounds RGB
total. -/
theorem blankData_foldl (f : Image) :
    ∀ (l : List (Nat × Nat)) (c : Nat) (q : ℚ),
    l.foldl
      (fun acc p =>
        if p.1 < f.width ∧ p.2 < f.height then
          ((if f.pix p.1 p.2 = (0, 0, 0) then acc.1 + 1 else acc.1),
           acc.2 + brightness (f.pix p.1 p.2))
        else acc)
      (c, q)
    = (c + (l.filter (fun p => decide (p.1 < f.width) && decide (p.2 < f.height))).countP
          (fun p => decide (f.pix p.1 p.2 = (0, 0, 0))),
       q + (((l.filter (fun p => decide (p.1 < f.width) && decide (p.2 < f.height))).map
          (fun p => (f.pix p.1 p.2).1 + (f.pix p.1 p.2).2.1 + (f.pix p.1 p.2).2.2)).sum : ℚ) / 3) := by
  intro l
  induction l with
  | nil => intro c q; simp
  | cons p l ih =>
      intro c q
      rw [List.foldl_cons]
      by_cases h1 : p.1 < f.width ∧ p.2 < f.height
      · have hf : (decide (p.1 < f.width) && decide (p.2 < f.height)) = true := by
          simp [h1.1, h1.2]
        rw [if_pos h1, ih]
        simp only [List.filter_cons, hf, if_true, List.countP_cons, List.map_cons,
          List.sum_cons, Prod.mk.injEq]
        constructor
        · simp only [decide_eq_true_eq]
          by_cases h2 : f.pix p.1 p.2 = (0, 0, 0)
          · rw [if_pos h2, if_pos h2]
            omega
          · rw [if_neg h2, if_neg h2]
            omega
        · unfold brightness
          push_cast
          ring
      · have hf : (decide (p.1 < f.width) && decide (p.2 < f.height)) = false := by
          rcases Decidable.not_and_iff_or_not.mp h1 with h | h <;> simp [h]
        rw [if_neg h1, ih]
        simp [List.filter_cons, hf]

/-- The blank statistics are the in-bounds black count and one third of
the in-bounds RGB total. -/
theorem blankData_eq (f : Image) :
    blankData f = (blackCount f, (rgbSum f : ℚ) / 3) := by
  unfold blankData blackCount rgbSum inboundsProbes
  rw [blankData_foldl]
  simp

/-- The float comparison `blank_count / 7 >= 0.6` holds exactly for at
least 5 black probes. -/
theorem blackFrac_iff (c : Nat) : (3 : ℚ) / 5 ≤ (c : ℚ) / 7 ↔ 5 ≤ c := by
  rw [div_le_div_iff (by norm_num) (by norm_num)]
  rw [show (3 : ℚ) * 7 = ((21 : Nat) : ℚ) by norm_num,
    show (c : ℚ) * 5 = ((c * 5 : Nat) : ℚ) by push_cast; ring, Nat.cast_le]
  omega

/-- The float comparison `avg_brightness < 10` holds exactly for a total
RGB amount below 210. -/
theorem brightSum_iff (s : Nat) : ((s : ℚ) / 3) / 7 < 10 ↔ s < 210 := by
  rw [div_div, div_lt_iff (by norm_num : (0 : ℚ) < 3 * 7)]
  rw [show (10 : ℚ) * (3 * 7) = ((210 : Nat) : ℚ) by norm_num, Nat.cast_lt]

/-- The rational blank test of the source equals its integer form. -/
theorem isBlankFrame_eq (f : Image) : isBlankFrame f = isBlankB f := by
  unfold isBlankFrame isBlankB
  rw [blankData_eq]
  rw [decide_eq_decide]
  rw [blackFrac_iff, brightSum_iff]

/-- Summing pointwise brightness is one third of summing RGB totals. -/
theorem sum_brightness (f : Image) (l : List (Nat × Nat)) :
    (l.map (fun p => brightness (f.pix p.1 p.2))).sum
      = ((l.map (fun p =>
          (f.pix p.1 p.2).1 + (f.pix p.1 p.2).2.1 + (f.pix p.1 p.2).2.2)).sum : ℚ) / 3 := by
  induction l with
  | nil => simp
  | cons p l ih =>
      simp only [List.map_cons, List.sum_cons, ih]
      unfold brightness
      push_cast
      ring

/-- Membership in a fold that appends two sublists per element, the shape
of the per-extension `extend` pair in directory discovery. -/
theorem mem_foldl_append2 {α β : Type} (g₁ g₂ : β → List α) (l : List β) :
    ∀ (init : List α) (x : α),
    (x ∈ l.foldl (fun acc e => acc ++ g₁ e ++ g₂ e) init
      ↔ x ∈ init ∨ ∃ e ∈ l, x ∈ g₁ e ∨ x ∈ g₂ e) := by
  induction l with
  | nil => intro init x; simp
  | cons e l ih =>
      intro init x
      rw [List.foldl_cons, ih]
      simp only [List.mem_append, List.mem_cons]
      constructor
      · rintro (((h | h) | h) | ⟨e2, he2, hx⟩)
        · exact Or.inl h
        · exact Or.inr ⟨e, Or.inl rfl, Or.inl h⟩
        · exact Or.inr ⟨e, Or.inl rfl, Or.inr h⟩
        · exact Or.inr ⟨e2, Or.inr he2, hx⟩
      · rintro (h | ⟨e2, (rfl | he2), hx⟩)
        · exact Or.inl (Or.inl (Or.inl h))
        · rcases hx with hx | hx
          · exact Or.inl (Or.inl (Or.inr hx))
          · exact Or.inl (Or.inr hx)
        · exact Or.inr ⟨e2, he2, hx⟩

/-- `gridCells` row-by-row unfolding. -/
theorem gridCells_succ (cols n : Nat) :
    gridCells cols (n + 1)
      = gridCells cols n ++ (List.range cols).map (fun c2 => (n, c2)) := rfl

/-- The cell list has one entry per grid cell. -/
theorem gridCells_length (cols rows : Nat) :
    (gridCells cols rows).length = rows * cols := by
  induction rows with
  | zero => rw [Nat.zero_mul]; rfl
  | succ n ih =>
      rw [gridCells_succ, List.length_append, ih, List.length_map,
        List.length_range, Nat.succ_mul]

/-- The cell at row-major position `row * cols + col` is `(row, col)`. -/
theorem gridCells_get? (cols rows row col : Nat) (hr : row < rows) (hc : col < cols) :
    (gridCells cols rows).get? (row * cols + col) = some (row, col) := by
  induction rows with
  | zero => omega
  | succ n ih =>
      rw [gridCells_succ]
      by_cases h : row < n
      · rw [List.get?_append]
        · exact ih h
        · rw [gridCells_length]
          calc row * cols + col < row * cols + cols := by omega
            _ = (row + 1) * cols := (Nat.succ_mul row cols).symm
            _ ≤ n * cols := Nat.mul_le_mul_right cols (by omega)
      · have hrow : row = n := by omega
        subst hrow
        rw [List.get?_append_right]
        · rw [gridCells_length, Nat.add_sub_cancel_left, List.get?_map,
            List.get?_range hc]
          rfl
        · rw [gridCells_length]
          omega

/-- C1: whenever more than one frame is retained after blank filtering,
the encoded GIF has exactly one more frame than the retained sequence, its
final frame is pixel-identical to its first, and its first frame is the
first retained frame. -/
theorem c1_loop_append (sheet : Image) (cols rows fps : Nat)
    (origRes : Option (Nat × Nat)) (rf : Image → Nat → Nat → Image)
    (h : 1 < (extractRetainedFrames sheet cols rows origRes rf).length) :
    ∃ g : GifEncode,
      create_sprite_gif true sheet cols rows fps origRes rf true = (some g, true) ∧
      g.frames.length = (extractRetainedFrames sheet cols rows origRes rf).length + 1 ∧
      Image.pixEq
        (frameAt g.frames ((extractRetainedFrames sheet cols rows origRes rf).length))
        (frameAt g.frames 0) ∧
      Image.pixEq (frameAt g.frames 0)
        (frameAt (extractRetainedFrames sheet cols rows origRes rf) 0) := by
  rcases hre : extractRetainedFrames sheet cols rows origRes rf with _ | ⟨a, _ | ⟨b, rest⟩⟩
  · rw [hre] at h
    simp at h
  · rw [hre] at h
    simp at h
  · refine ⟨⟨(a :: b :: rest) ++ [a], 1000 / fps, 0⟩, ?_, by simp, ?_, ?_⟩
    · simp [create_sprite_gif, hre, loopFrames]
    · have h1 : frameAt ((a :: b :: rest) ++ [a]) (a :: b :: rest).length = a := by
        rw [frameAt, List.getD_eq_get?, List.get?_concat_length]
        rfl
      rw [h1]
      exact Image.pixEq_refl a
    · exact Image.pixEq_refl a

/-- C1 witness: on the all-white 4×2 sheet with a 2×1 grid, two frames
are retained and the encoded GIF has three frames closing the loop. -/
theorem c1_loop_append_witness :
    1 < (extractRetainedFrames allWhiteImg 2 1 none idResize).length ∧
    ∃ g : GifEncode,
      create_sprite_gif true allWhiteImg 2 1 10 none idResize true = (some g, true) ∧
      g.frames.length = (extractRetainedFrames allWhiteImg 2 1 none idResize).length + 1 ∧
      Image.pixEq
        (frameAt g.frames ((extractRetainedFrames allWhiteImg 2 1 none idResize).length))
        (frameAt g.frames 0) ∧
      Image.pixEq (frameAt g.frames 0)
        (frameAt (extractRetainedFrames allWhiteImg 2 1 none idResize) 0) := by
  have hlen : 1 < (extractRetainedFrames allWhiteImg 2 1 none idResize).length := by
    simp only [extractRetainedFrames, isBlankFrame_eq]
    decide
  exact ⟨hlen, c1_loop_append allWhiteImg 2 1 10 none idResize hlen⟩

/-- C2: with at most one frame no duplicate is appended, and with zero
retained frames no GIF is written and `create_sprite_gif` returns `False`
by its normal exit rather than an exception. -/
theorem c2_small_sequences (frames : List Image) (h : frames.length ≤ 1) :
    loopFrames frames = frames ∧
    ∀ (sheet : Image) (cols rows fps : Nat) (origRes : Option (Nat × Nat))
      (rf : Image → Nat → Nat → Image) (encodeOk : Bool),
      (extractRetainedFrames sheet cols rows origRes rf).length = 0 →
      (create_sprite_gif true sheet cols rows fps origRes rf encodeOk).1 = none ∧
      (create_sprite_gif true sheet cols rows fps origRes rf encodeOk).2 = false := by
  constructor
  · match frames, h with
    | [], _ => rfl
    | [f], _ => rfl
    | f0 :: f1 :: rest, h => simp only [List.length_cons] at h; omega
  · intro sheet cols rows fps origRes rf encodeOk h0
    have he : extractRetainedFrames sheet cols rows origRes rf = [] :=
      List.length_eq_zero.mp h0
    constructor <;> simp [create_sprite_gif, he, loopFrames]

/-- C2 witness: the all-black 4×2 sheet with a 2×1 grid retains zero
frames; no GIF is produced and the call reports failure. -/
theorem c2_small_sequences_witness :
    ([] : List Image).length ≤ 1 ∧
    (extractRetainedFrames allBlackImg 2 1 none idResize).length = 0 ∧
    loopFrames [] = ([] : List Image) ∧
    (create_sprite_gif true allBlackImg 2 1 10 none idResize true).1 = none ∧
    (create_sprite_gif true allBlackImg 2 1 10 none idResize true).2 = false := by
  have h0 : (extractRetainedFrames allBlackImg 2 1 none idResize).length = 0 := by
    simp only [extractRetainedFrames, isBlankFrame_eq]
    decide
  refine ⟨by decide, h0, (c2_small_sequences [] (by decide)).1, ?_, ?_⟩
  · exact ((c2_small_sequences [] (by decide)).2 allBlackImg 2 1 10 none idResize true h0).1
  · exact ((c2_small_sequences [] (by decide)).2 allBlackImg 2 1 10 none idResize true h0).2

/-- C4 counterexample: at `frameRate = 6` the encoded per-frame duration
is `int(1000/6) = 166` milliseconds, while `round(1000/6) = 167`; the
claimed rounding does not match the code's truncation. -/
theorem c4_round_cex :
    (create_sprite_gif true allWhiteImg 2 1 6 none idResize true).1.map GifEncode.duration
      = some 166 ∧
    round ((1000 : ℚ) / 6) = 167 := by
  constructor
  · simp only [create_sprite_gif, extractRetainedFrames, isBlankFrame_eq]
    decide
  · rw [round_eq, show (1000 : ℚ) / 6 + 1 / 2 = 2006 / 12 by norm_num]
    rw [Int.floor_eq_iff]
    constructor <;> norm_num

/-- C4 amended: for every positive frameRate, every encoded animation
carries the per-frame duration `⌊1000 / frameRate⌋` milliseconds
(truncating division, not rounding), uniformly across all frames
including the appended duplicate. -/
theorem c4_duration_floor (pil : Bool) (sheet : Image) (cols rows fps : Nat)
    (origRes : Option (Nat × Nat)) (rf : Image → Nat → Nat → Image)
    (encodeOk : Bool) (_hfps : 0 < fps) :
    ∀ g ∈ (create_sprite_gif pil sheet cols rows fps origRes rf encodeOk).1,
      g.duration = 1000 / fps ∧
      (gifFrameDurations g).length = g.frames.length ∧
      ∀ d ∈ gifFrameDurations g, d = 1000 / fps := by
  intro g hg
  simp only [create_sprite_gif] at hg
  split at hg
  · simp at hg
  · split at hg
    · simp at hg
    · split at hg
      · simp only [Option.mem_def, Option.some.injEq] at hg
        subst hg
        refine ⟨rfl, by simp [gifFrameDurations], ?_⟩
        intro d hd
        simp only [gifFrameDurations, List.mem_replicate] at hd
        exact hd.2
      · simp at hg

/-- C4 amended witness: at `frameRate = 6` on the all-white sheet a GIF is
produced and every frame's duration is `1000 / 6 = 166`. -/
theorem c4_duration_floor_witness :
    0 < 6 ∧
    (create_sprite_gif true allWhiteImg 2 1 6 none idResize true).1.isSome = true ∧
    ∀ g ∈ (create_sprite_gif true allWhiteImg 2 1 6 none idResize true).1,
      g.duration = 1000 / 6 ∧
      (gifFrameDurations g).length = g.frames.length ∧
      ∀ d ∈ gifFrameDurations g, d = 1000 / 6 := by
  refine ⟨by decide, ?_, c4_duration_floor true allWhiteImg 2 1 6 none idResize true (by decide)⟩
  simp only [create_sprite_gif, extractRetainedFrames, isBlankFrame_eq]
  decide

/-- C3: on every frame whose probe points all lie in bounds (width and
height at least 2), the blank classification holds exactly when the
black fraction over the seven probe points reaches 0.6 or their average
brightness is below 10; and blank frames are discarded from the cropped
sequence by filtering, never replaced. -/
theorem c3_blank_classification (f : Image) (hw : 2 ≤ f.width) (hh : 2 ≤ f.height) :
    (isBlankFrame f = true ↔
      ((3 : ℚ) / 5 ≤
        (((pixels_to_check f.width f.height).countP
          (fun p => decide (f.pix p.1 p.2 = (0, 0, 0)))) : ℚ) / 7 ∨
       ((pixels_to_check f.width f.height).map
          (fun p => brightness (f.pix p.1 p.2))).sum / 7 < 10)) ∧
    ∀ (sheet : Image) (cols rows : Nat) (rf : Image → Nat → Nat → Image),
      extractRetainedFrames sheet cols rows none rf
        = (croppedFrames sheet cols rows).filter (fun fr => !isBlankFrame fr) := by
  have hb : ∀ p ∈ pixels_to_check f.width f.height,
      p.1 < f.width ∧ p.2 < f.height := by
    intro p hp
    simp only [pixels_to_check, List.mem_cons, List.not_mem_nil, or_false] at hp
    rcases hp with rfl | rfl | rfl | rfl | rfl | rfl | rfl <;> dsimp only <;>
      constructor <;> omega
  have inb : inboundsProbes f = pixels_to_check f.width f.height := by
    unfold inboundsProbes
    rw [List.filter_eq_self]
    intro p hp
    have h := hb p hp
    simp [h.1, h.2]
  constructor
  · simp only [isBlankFrame, blankData_eq, decide_eq_true_eq]
    unfold blackCount rgbSum
    rw [inb, sum_brightness]
  · intro sheet cols rows rf
    unfold extractRetainedFrames
    exact filterMap_if_eq_filter isBlankFrame (croppedFrames sheet cols rows)

/-- C3 witness: the 2×2 all-black frame is classified blank (7 of 7 probe
points are black, average brightness 0). -/
theorem c3_blank_classification_witness :
    2 ≤ blackFrame.width ∧ 2 ≤ blackFrame.height ∧
    ((isBlankFrame blackFrame = true ↔
      ((3 : ℚ) / 5 ≤
        (((pixels_to_check blackFrame.width blackFrame.height).countP
          (fun p => decide (blackFrame.pix p.1 p.2 = (0, 0, 0)))) : ℚ) / 7 ∨
       ((pixels_to_check blackFrame.width blackFrame.height).map
          (fun p => brightness (blackFrame.pix p.1 p.2))).sum / 7 < 10)) ∧
    ∀ (sheet : Image) (cols rows : Nat) (rf : Image → Nat → Nat → Image),
      extractRetainedFrames sheet cols rows none rf
        = (croppedFrames sheet cols rows).filter (fun fr => !isBlankFrame fr)) :=
  ⟨by decide, by decide, c3_blank_classification blackFrame (by decide) (by decide)⟩

/-- C5 counterexample: a single-file invocation on `clip.txt` (an
unsupported extension) completes with process exit status 0, not the
claimed nonzero status; the per-file handler merely returns `False`. -/
theorem c5_exit_zero_cex :
    strToLower (pathSuffix "clip.txt") ∉ supported_formats ∧
    (process_video_file "clip.txt" none 10 "64x64" "6x6" none false false sampleEnv).extractionCmd
      = none ∧
    (mainSingle true "clip.txt" none 10 "64x64" "6x6" none false false sampleEnv).1 = 0 := by
  refine ⟨by decide, by decide, rfl⟩

/-- C5 amended: an unsupported extension is rejected before any ffmpeg
extraction command is built or run and the handler reports failure, but a
single-file invocation still exits with status 0 because `main` ignores
the handler's return value. -/
theorem c5_reject_no_invoke (inputName : String) (output : Option String)
    (fps : Nat) (size grid : String) (preset : Option Preset)
    (loopFlag create_gif : Bool) (env : VEnv)
    (h : strToLower (pathSuffix inputName) ∉ supported_formats) :
    (process_video_file inputName output fps size grid preset loopFlag create_gif env).extractionCmd
      = none ∧
    (process_video_file inputName output fps size grid preset loopFlag create_gif env).written
      = [] ∧
    (process_video_file inputName output fps size grid preset loopFlag create_gif env).success
      = false ∧
    (mainSingle true inputName output fps size grid preset loopFlag create_gif env).1 = 0 := by
  have hp : process_video_file inputName output fps size grid preset loopFlag create_gif env
      = ⟨none, [], false⟩ := by
    unfold process_video_file
    rw [if_pos h]
  exact ⟨by rw [hp], by rw [hp], by rw [hp], rfl⟩

/-- C5 amended witness: concrete run on `clip.txt`. -/
theorem c5_reject_no_invoke_witness :
    strToLower (pathSuffix "clip.txt") ∉ supported_formats ∧
    ((process_video_file "clip.txt" none 10 "64x64" "6x6" none false false sampleEnv).extractionCmd
        = none ∧
      (process_video_file "clip.txt" none 10 "64x64" "6x6" none false false sampleEnv).written
        = [] ∧
      (process_video_file "clip.txt" none 10 "64x64" "6x6" none false false sampleEnv).success
        = false ∧
      (mainSingle true "clip.txt" none 10 "64x64" "6x6" none false false sampleEnv).1 = 0) :=
  ⟨by decide,
    c5_reject_no_invoke "clip.txt" none 10 "64x64" "6x6" none false false sampleEnv (by decide)⟩

/-- C6 counterexample: the mixed-case filename `a.mOv` has an extension
that matches `.mov` case-insensitively, yet directory discovery selects
nothing — the glob pair is exact-lowercase/exact-uppercase, not
case-insensitive. -/
theorem c6_discovery_cex :
    findVideoFiles ["a.mOv"] = [] ∧
    strEndsWith (strToLower "a.mOv") ".mov" = true := by
  constructor <;> decide

/-- C6 amended: directory discovery selects exactly the files ending in
one of the six literal extension spellings `.mov/.mp4/.mpg` and their
all-uppercase forms; the example directory `a.mp4, b.MOV, c.mpg, d.txt`
still yields exactly 3 files. -/
theorem c6_discovery_exact_case (names : List String) (n : String) :
    (n ∈ findVideoFiles names ↔
      n ∈ names ∧ ∃ ext ∈ video_extensions,
        strEndsWith n ext = true ∨ strEndsWith n (strToUpper ext) = true) ∧
    (findVideoFiles ["a.mp4", "b.MOV", "c.mpg", "d.txt"]).length = 3 := by
  constructor
  · unfold findVideoFiles
    rw [mem_foldl_append2]
    simp only [List.not_mem_nil, false_or]
    constructor
    · rintro ⟨ext, hext, hn | hn⟩ <;> rw [List.mem_filter] at hn
      · exact ⟨hn.1, ext, hext, Or.inl hn.2⟩
      · exact ⟨hn.1, ext, hext, Or.inr hn.2⟩
    · rintro ⟨hmem, ext, hext, h | h⟩
      · exact ⟨ext, hext, Or.inl (List.mem_filter.mpr ⟨hmem, h⟩)⟩
      · exact ⟨ext, hext, Or.inr (List.mem_filter.mpr ⟨hmem, h⟩)⟩
  · decide

/-- C7: the `web` preset resolves to exactly 8 fps, 32×32, 4×4 no matter
what fps, size and grid were passed alongside it, and the extraction
filter built from the resolved configuration is the corresponding
`fps=8,scale=32x32,tile=4x4` expression. -/
theorem c7_preset_web_overrides (fps : Nat) (size grid : String) (loopFlag : Bool) :
    applyPreset (some Preset.web) fps size grid = ⟨8, "32x32", "4x4"⟩ ∧
    buildVf loopFlag (applyPreset (some Preset.web) fps size grid).fps
        (applyPreset (some Preset.web) fps size grid).size
        (applyPreset (some Preset.web) fps size grid).grid
      = "fps=8,scale=32x32,tile=4x4" := by
  refine ⟨rfl, ?_⟩
  show buildVf loopFlag 8 "32x32" "4x4" = "fps=8,scale=32x32,tile=4x4"
  cases loopFlag <;> rfl

/-- C8: slicing computes cell dimensions by integer division and crops in
row-major order: the cell list has `rows * cols` entries and the entry at
position `row * cols + col` is exactly the `cellWidth × cellHeight` crop
at offset `(col * cellWidth, row * cellHeight)`. -/
theorem c8_cell_geometry (sheet : Image) (cols rows row col : Nat)
    (hr : row < rows) (hc : col < cols) :
    (croppedFrames sheet cols rows).length = rows * cols ∧
    (frameAt (croppedFrames sheet cols rows) (row * cols + col)).width
        = sheet.width / cols ∧
    (frameAt (croppedFrames sheet cols rows) (row * cols + col)).height
        = sheet.height / rows ∧
    ∀ x y, (frameAt (croppedFrames sheet cols rows) (row * cols + col)).pix x y
        = sheet.pix (col * (sheet.width / cols) + x) (row * (sheet.height / rows) + y) := by
  have hlen : (croppedFrames sheet cols rows).length = rows * cols := by
    simp only [croppedFrames, List.length_map]
    exact gridCells_length cols rows
  have hcell : frameAt (croppedFrames sheet cols rows) (row * cols + col)
      = sheet.crop (col * (sheet.width / cols)) (row * (sheet.height / rows))
          (col * (sheet.width / cols) + sheet.width / cols)
          (row * (sheet.height / rows) + sheet.height / rows) := by
    simp only [frameAt, croppedFrames, List.getD_eq_get?, List.get?_map,
      gridCells_get? cols rows row col hr hc]
    rfl
  refine ⟨hlen, ?_, ?_, ?_⟩
  · rw [hcell]
    simp only [Image.crop]
    generalize sheet.width / cols = fw
    omega
  · rw [hcell]
    simp only [Image.crop]
    generalize sheet.height / rows = fh
    omega
  · intro x y
    rw [hcell]
    rfl

/-- C8 witness: on the all-white 4×2 sheet with a 2×1 grid, the cell at
row 0, column 1 is the 2×2 crop at offset (2, 0). -/
theorem c8_cell_geometry_witness :
    0 < 1 ∧ 1 < 2 ∧
    ((croppedFrames allWhiteImg 2 1).length = 1 * 2 ∧
      (frameAt (croppedFrames allWhiteImg 2 1) (0 * 2 + 1)).width
          = allWhiteImg.width / 2 ∧
      (frameAt (croppedFrames allWhiteImg 2 1) (0 * 2 + 1)).height
          = allWhiteImg.height / 1 ∧
      ∀ x y, (frameAt (croppedFrames allWhiteImg 2 1) (0 * 2 + 1)).pix x y
          = allWhiteImg.pix (1 * (allWhiteImg.width / 2) + x)
              (0 * (allWhiteImg.height / 1) + y)) :=
  ⟨by decide, by decide, c8_cell_geometry allWhiteImg 2 1 0 1 (by decide) (by decide)⟩

/-- C9: once the conversion has succeeded and the sheet file exists, the
run reports success and the sheet file stays in the written list whatever
the GIF stage does — Pillow missing or a failing loop synthesis never
aborts the run or removes the sheet. -/
theorem c9_sheet_preserved (inputName : String) (output : Option String)
    (fps : Nat) (size grid : String) (preset : Option Preset)
    (loopFlag create_gif : Bool) (env : VEnv)
    (hfmt : strToLower (pathSuffix inputName) ∈ supported_formats)
    (hconv : env.convOk = true) (hout : env.outputExists = true) :
    (process_video_file inputName output fps size grid preset loopFlag create_gif env).success
        = true ∧
    resolvedOutput inputName output fps size grid preset
      ∈ (process_video_file inputName output fps size grid preset loopFlag create_gif env).written := by
  unfold process_video_file
  rw [if_neg (not_not_intro hfmt), hconv, hout]
  exact ⟨rfl, List.mem_cons_self _ _⟩

/-- C9 witness: with Pillow unavailable, the run on `clip.mp4` still
succeeds, the sheet output stays written, and the GIF stage merely
returns `False`. -/
theorem c9_sheet_preserved_witness :
    strToLower (pathSuffix "clip.mp4") ∈ supported_formats ∧
    sampleEnvNoPil.convOk = true ∧
    sampleEnvNoPil.outputExists = true ∧
    sampleEnvNoPil.pil = false ∧
    (create_sprite_gif sampleEnvNoPil.pil sampleEnvNoPil.sheetImage 6 6 10
        sampleEnvNoPil.origRes sampleEnvNoPil.resizeFn sampleEnvNoPil.encodeOk).2 = false ∧
    ((process_video_file "clip.mp4" none 10 "64x64" "6x6" none false true sampleEnvNoPil).success
        = true ∧
      resolvedOutput "clip.mp4" none 10 "64x64" "6x6" none
        ∈ (process_video_file "clip.mp4" none 10 "64x64" "6x6" none false true sampleEnvNoPil).written) :=
  ⟨by decide, by decide, by decide, by decide, by decide,
    c9_sheet_preserved "clip.mp4" none 10 "64x64" "6x6" none false true sampleEnvNoPil
      (by decide) (by decide) (by decide)⟩

/-- C10: the `--loop` flag changes neither the ffmpeg video filter
expression nor the extraction command run to build the sprite sheet; loop
handling happens only in GIF creation. -/
theorem c10_loop_flag_same_extraction (fps : Nat) (size grid : String)
    (inputName : String) (output : Option String) (preset : Option Preset)
    (create_gif : Bool) (env : VEnv) :
    buildVf true fps size grid = buildVf false fps size grid ∧
    (process_video_file inputName output fps size grid preset true create_gif env).extractionCmd
      = (process_video_file inputName output fps size grid preset false create_gif env).extractionCmd :=
  ⟨rfl, rfl⟩

end Spriter
